import Mathlib

/-!
Shallow embedding of the evolutionary AutoML core: the population-based model
search (population.py, evolutionaryModel.py, model_creation.py), the
time-boxed random-forest training loop (randomForestModel.py), and the
dictionary serialization codec shared by the model backends.

Machine floats of the source are embedded as rationals; randomness is
externalized into oracle parameters recording what each random draw returned;
Python exceptions become Except values.
-/

/-- Task kinds. The source keys tasks by the string constants CLASSIFICATION
and REGRESSION imported from constants.py (a file of this repository that is
not under src); the two tags are embedded as an inductive type, and a task
string outside AVAILABLE_TASKS is embedded as none wherever an Option TaskKind
appears. -/
inductive TaskKind where
  | classification
  | regression
  deriving DecidableEq

/-- The task-aware fitness comparator in the words of spec 4.4: for
classification a strictly greater score is fitter, for regression a strictly
smaller score is fitter.  This is the spec-side yardstick the claims measure
the program against; the program's own method Population._is_fitter
(population.py lines 141-148) is a TODO stub and is embedded separately as
is_fitter_src. -/
def is_fitter (task : TaskKind) (actual best : ℚ) : Bool :=
  match task with
  | .classification => decide (best < actual)
  | .regression => decide (actual < best)

set_option linter.unusedVariables false in
/-- Population._is_fitter as the source has it (population.py lines
141-148): the method body is a TODO stub consisting of a docstring and a
TODO comment, so every call returns Python None. -/
def is_fitter_src (actual best : ℚ) : Option Bool :=
  none

/-- Python truthiness of a value that may be None (None is falsy). -/
def py_truthy : Option Bool → Bool
  | none => false
  | some b => b

/-- The comparison the scan condition at population.py line 85 actually
evaluates: the truthiness of what the TODO-stub _is_fitter returns — false
for every pair of scores. -/
def is_fitter_src_cond (actual best : ℚ) : Bool :=
  py_truthy (is_fitter_src actual best)

/-- One update of the run-level best record, from EvolutionaryModel.train
(evolutionaryModel.py lines 112-114): the record is overwritten when no score
has been recorded yet, or when the stored score is strictly greater than the
offspring's score.  The offspring model is abstracted by the type parameter.
Note that the comparison is the hardcoded Python test
self._model_score > score and takes no task argument. -/
def update_best {μ : Type} (best : Option (μ × ℚ)) (offspring : μ) (score : ℚ) :
    Option (μ × ℚ) :=
  match best with
  | none => some (offspring, score)
  | some (bm, bs) => if bs > score then some (offspring, score) else some (bm, bs)

/-- The run-level best record after a sequence of generations, each generation
contributing one evaluated offspring: the fold of update_best over the run. -/
def run_best {μ : Type} (init : Option (μ × ℚ)) (gens : List (μ × ℚ)) :
    Option (μ × ℚ) :=
  gens.foldl (fun b g => update_best b g.1 g.2) init

theorem run_best_le {μ : Type} (gens : List (μ × ℚ)) (bm : μ) (bs : ℚ) :
    ∃ m2 s2, run_best (some (bm, bs)) gens = some (m2, s2) ∧ s2 ≤ bs := by
  induction gens generalizing bm bs with
  | nil => exact ⟨bm, bs, rfl, le_refl bs⟩
  | cons g t ih =>
    show ∃ m2 s2,
      run_best (update_best (some (bm, bs)) g.1 g.2) t = some (m2, s2) ∧ s2 ≤ bs
    by_cases h : bs > g.2
    · have hup : update_best (some (bm, bs)) g.1 g.2 = some (g.1, g.2) := by
        simp [update_best, h]
      rw [hup]
      obtain ⟨m2, s2, hrun, hle⟩ := ih g.1 g.2
      exact ⟨m2, s2, hrun, le_trans hle (le_of_lt h)⟩
    · have hup : update_best (some (bm, bs)) g.1 g.2 = some (bm, bs) := by
        simp [update_best, h]
      rw [hup]
      exact ih bm bs

/-- C1 counterexample: with task = classification, a recorded best score of
9/10 and an offspring score of 1/2, the driver overwrites the best record
(because 9/10 > 1/2), although under the task-aware comparator the offspring
is not fitter than the best-so-far.  So the run-level best is not updated
with the population's task-aware comparator, and is not only overwritten on
strict improvement under it. -/
theorem update_best_ignores_classification_direction :
    update_best (some (0, (9:ℚ)/10)) 1 ((1:ℚ)/2) = some (1, (1:ℚ)/2) ∧
    is_fitter TaskKind.classification ((1:ℚ)/2) ((9:ℚ)/10) = false := by
  constructor
  · simp only [update_best]
    norm_num
  · simp only [is_fitter, decide_eq_false_iff_not]
    norm_num

/-- C1 (amended): the run-level best record is overwritten exactly when the
offspring's score is strictly smaller than the stored score — a hardcoded
smaller-is-better rule that coincides with the task comparator for regression
only, independently of the actual task; consequently, over any sequence of
generations the recorded best score is monotonically nonincreasing. -/
theorem update_best_smaller_wins {μ : Type} (bm : μ) (bs : ℚ) (m : μ) (s : ℚ)
    (gens : List (μ × ℚ)) :
    update_best (some (bm, bs)) m s =
      (if is_fitter TaskKind.regression s bs then some (m, s) else some (bm, bs)) ∧
    ∃ m2 s2, run_best (some (bm, bs)) gens = some (m2, s2) ∧ s2 ≤ bs := by
  constructor
  · simp [update_best, is_fitter, gt_iff_lt]
  · exact run_best_le gens bm bs

/-- Python int() conversion, truncation toward zero, as applied at lines
123-126 of randomForestModel.py to the estimated epoch count. -/
def pyTrunc (x : ℚ) : ℤ :=
  if 0 ≤ x then Int.floor x else Int.ceil x

/-- The source's rounding of the estimated number of remaining epochs
(randomForestModel.py lines 121-126): add one to the truncation when the
difference from the truncation is at least one half. -/
def roundEpochs (x : ℚ) : ℤ :=
  if (1:ℚ)/2 ≤ x - pyTrunc x then pyTrunc x + 1 else pyTrunc x

/-- Rounding to the nearest integer with halves rounding up; the spec-side
rule C6 asserts about the time-budget check, stated for comparison with
roundEpochs. -/
def halfUpRound (x : ℚ) : ℤ :=
  Int.floor (x + 1/2)

/-- The scheduling decision at randomForestModel.py lines 121-129: a new
internal iteration is scheduled iff the rounded estimate of remaining epochs
(remaining time divided by average epoch duration) is strictly positive. -/
def keepTraining (requestedFinish epochEnd timePerEpoch : ℚ) : Bool :=
  decide (0 < roundEpochs ((requestedFinish - epochEnd) / timePerEpoch))

theorem pyTrunc_nonneg_eq_floor (x : ℚ) (hx : 0 ≤ x) : pyTrunc x = Int.floor x := by
  simp [pyTrunc, hx]

theorem roundEpochs_nonneg_eq (x : ℚ) (hx : 0 ≤ x) : roundEpochs x = halfUpRound x := by
  have hfl : pyTrunc x = Int.floor x := pyTrunc_nonneg_eq_floor x hx
  have h1 : (Int.floor x : ℚ) ≤ x := Int.floor_le x
  have h2 : x < Int.floor x + 1 := Int.lt_floor_add_one x
  rw [roundEpochs, hfl, halfUpRound]
  by_cases hc : (1:ℚ)/2 ≤ x - Int.floor x
  · rw [if_pos hc]
    symm
    rw [Int.floor_eq_iff]
    constructor
    · push_cast
      linarith
    · push_cast
      linarith
  · rw [if_neg hc]
    symm
    rw [Int.floor_eq_iff]
    constructor
    · linarith
    · push_neg at hc
      linarith

theorem roundEpochs_pos_iff (x : ℚ) : 0 < roundEpochs x ↔ 0 < halfUpRound x := by
  by_cases hx : 0 ≤ x
  · rw [roundEpochs_nonneg_eq x hx]
  · push_neg at hx
    have hceil : pyTrunc x = Int.ceil x := by
      simp [pyTrunc, not_le.mpr hx]
    have hle : x ≤ (Int.ceil x : ℚ) := Int.le_ceil x
    have hcond : ¬ ((1:ℚ)/2 ≤ x - pyTrunc x) := by
      rw [hceil]
      push_neg
      linarith
    have hr : roundEpochs x = Int.ceil x := by
      rw [roundEpochs, if_neg hcond, hceil]
    have hcnp : Int.ceil x ≤ 0 := by
      rw [Int.ceil_le]
      exact_mod_cast le_of_lt hx
    have hfl : Int.floor (x + 1/2) < 1 := by
      rw [Int.floor_lt]
      push_cast
      linarith
    constructor
    · intro h
      rw [hr] at h
      omega
    · intro h
      rw [halfUpRound] at h
      omega

/-- C6 counterexample: with 17 time units of overrun (remaining time -17) and
an average epoch duration of 10, the estimate is -17/10; the source computes
-1 for it, while rounding to the nearest integer with halves up gives -2.
So the computed estimate is not the half-up nearest integer. -/
theorem roundEpochs_not_half_up :
    roundEpochs ((-17:ℚ)/10) = -1 ∧ halfUpRound ((-17:ℚ)/10) = -2 := by
  have hlt : ((-17:ℚ)/10) < 0 := by norm_num
  have hceil : Int.ceil ((-17:ℚ)/10) = -1 := by
    rw [Int.ceil_eq_iff]
    constructor
    · push_cast
      norm_num
    · push_cast
      norm_num
  have htr : pyTrunc ((-17:ℚ)/10) = -1 := by
    rw [pyTrunc, if_neg (not_le.mpr hlt), hceil]
  have hcond : ¬ ((1:ℚ)/2 ≤ (-17:ℚ)/10 - (pyTrunc ((-17:ℚ)/10) : ℚ)) := by
    rw [htr]
    push_cast
    norm_num
  constructor
  · rw [roundEpochs, if_neg hcond, htr]
  · rw [halfUpRound, Int.floor_eq_iff]
    constructor
    · push_cast
      norm_num
    · push_cast
      norm_num

/-- C6 (amended): after each completed internal iteration the source computes
the estimate as remaining time divided by the running average iteration
duration, rounded half-up to the nearest integer whenever the quotient is
nonnegative (for negative quotients it truncates toward zero instead); and a
new iteration is scheduled iff the computed estimate is strictly positive,
which holds iff the half-up rounding of the quotient is strictly positive. -/
theorem keepTraining_iff_half_up (f e a : ℚ) :
    (0 ≤ (f - e) / a → roundEpochs ((f - e) / a) = halfUpRound ((f - e) / a)) ∧
    (keepTraining f e a = true ↔ 0 < halfUpRound ((f - e) / a)) := by
  constructor
  · intro h
    exact roundEpochs_nonneg_eq _ h
  · rw [keepTraining, decide_eq_true_iff]
    exact roundEpochs_pos_iff _

/-- C6 witness: the amended theorem applied at requested finish 3, epoch end
1, average duration 1 (estimate 2, nonnegative). -/
theorem keepTraining_iff_half_up_check :
    (0 ≤ ((3:ℚ) - 1) / 1) ∧
    roundEpochs (((3:ℚ) - 1) / 1) = halfUpRound (((3:ℚ) - 1) / 1) :=
  ⟨by norm_num, (keepTraining_iff_half_up 3 1 1).1 (by norm_num)⟩

/-- Hidden-layer structure drawn at model_creation.py lines 57-62: the draw
from HIDDEN_LAYERS_CHOICES is either a string (always treated as "smooth") or
a three-entry bound list, in which case a layer count and the individual
widths are sampled. -/
inductive HiddenLayers where
  | smooth
  | widths (l : List ℤ)
  deriving DecidableEq

/-- Activation assignment of a freshly created deep-learning model: either a
single network-wide activation or one activation per layer (length one more
than the number of hidden layers), from model_creation.py lines 64-69. -/
inductive Activations where
  | single (s : String)
  | perLayer (l : List String)
  deriving DecidableEq

/-- The outcomes of the random draws performed by create_deep_learning_model
(model_creation.py lines 54-77).  Randomness is external (Python random);
each field records what the corresponding library call returned.
layerCountDraw encodes randint(1, max(bound, 1)) as 1 + layerCountDraw,
covering exactly the values that call can produce.  singleActDraw records
choice(choice(ACTIVATION_CHOICES)) — with the default configuration the outer
choice picks a single character of the drawn activation name, but from the
embedding's point of view it is simply some string. -/
structure DLDraws where
  optimizer : String
  learningRate : ℚ
  momentum : ℚ
  layerRange : Option (ℤ × ℤ × ℤ)
  layerCountDraw : ℕ
  widthDraw : ℕ → ℤ
  uniformActivation : Bool
  singleActDraw : String
  layerActDraw : ℕ → String
  dropout : ℚ

/-- The hidden layers value computed at model_creation.py lines 57-62. -/
def drawn_layers (d : DLDraws) : HiddenLayers :=
  match d.layerRange with
  | none => .smooth
  | some _ => .widths ((List.range (1 + d.layerCountDraw)).map d.widthDraw)

/-- The activation value sampled at model_creation.py lines 64-69, before the
task-specific override: a single draw when the coin came up "uniform" or the
layers are "smooth", otherwise one draw per layer plus one. -/
def drawn_activations (d : DLDraws) : Activations :=
  match d.uniformActivation, drawn_layers d with
  | true, _ => .single d.singleActDraw
  | false, .smooth => .single d.singleActDraw
  | false, .widths l => .perLayer ((List.range (l.length + 1)).map d.layerActDraw)

/-- The classification override at model_creation.py lines 71-75: when the
task is classification, a single activation is replaced by "sigmoid" and in a
per-layer list the last entry (Python activation[-1]) is set to "sigmoid".
(Setting index length - 1 matches Python for the nonempty lists this code
produces; Python raises IndexError on an empty list, which cannot occur
here.) -/
def classification_override (task : Option TaskKind) (a : Activations) :
    Activations :=
  if task = some TaskKind.classification then
    match a with
    | .single _ => .single "sigmoid"
    | .perLayer l => .perLayer (l.set (l.length - 1) "sigmoid")
  else a

/-- The configuration record built by create_deep_learning_model at
model_creation.py lines 79-91 (the model_config dictionary plus the
constructor arguments of DeepLearningModel). -/
structure DeepLearningModelSpec where
  criterion : String
  optimizer : String
  learningRate : ℚ
  momentum : ℚ
  hiddenLayers : HiddenLayers
  activations : Activations
  dropout : ℚ
  inSize : ℕ
  outSize : ℕ
  task : Option TaskKind

/-- create_deep_learning_model (model_creation.py lines 41-91) as a function
of the random draws. -/
def create_deep_learning_model (inSize outSize : ℕ) (task : Option TaskKind)
    (criterion : String) (d : DLDraws) : DeepLearningModelSpec :=
  { criterion := criterion
    optimizer := d.optimizer
    learningRate := d.learningRate
    momentum := d.momentum
    hiddenLayers := drawn_layers d
    activations := classification_override task (drawn_activations d)
    dropout := d.dropout
    inSize := inSize
    outSize := outSize
    task := task }

/-- create_random_model (model_creation.py lines 18-38): modelTypeDraw is the
tag drawn from the configured MODELS list and criterion the configured
GENERAL_CRITERION.  Only the "neural_network" branch builds a model; the
"some_future_type" branch is a pass and every other tag falls through, so the
Python function returns None for them. -/
def create_random_model (modelTypeDraw : String) (inSize outSize : ℕ)
    (criterion : String) (task : Option TaskKind) (d : DLDraws) :
    Option DeepLearningModelSpec :=
  if modelTypeDraw = "neural_network" then
    some (create_deep_learning_model inSize outSize task criterion d)
  else
    none

/-- The network-wide activation when a single one is used, or the final-layer
activation of a per-layer assignment. -/
def final_activation : Activations → Option String
  | .single s => some s
  | .perLayer l => l.getLast?

theorem getLast_set_of_ne_nil (l : List String) (x : String) (h : l ≠ []) :
    (l.set (l.length - 1) x).getLast? = some x := by
  induction l with
  | nil => exact absurd rfl h
  | cons a t ih =>
    cases t with
    | nil => rfl
    | cons b t2 =>
      have hres := ih (List.cons_ne_nil b t2)
      show (a :: (b :: t2).set ((b :: t2).length - 1) x).getLast? = some x
      cases hset : (b :: t2).set ((b :: t2).length - 1) x with
      | nil =>
        have hlen := congrArg List.length hset
        simp at hlen
      | cons c r =>
        rw [List.getLast?_cons_cons]
        rw [hset] at hres
        exact hres

/-- C9: for every random draw outcome, a candidate created by
create_deep_learning_model with task = classification has "sigmoid" as its
sole network-wide activation or as its final-layer activation, regardless of
which activations were sampled. -/
theorem classification_final_activation_sigmoid (inSize outSize : ℕ)
    (criterion : String) (d : DLDraws) :
    final_activation
      (create_deep_learning_model inSize outSize (some TaskKind.classification)
        criterion d).activations = some "sigmoid" := by
  show final_activation
    (classification_override (some TaskKind.classification)
      (drawn_activations d)) = some "sigmoid"
  rw [classification_override.eq_def, if_pos rfl]
  cases hact : drawn_activations d with
  | single s => rfl
  | perLayer l =>
    show (l.set (l.length - 1) "sigmoid").getLast? = some "sigmoid"
    have hne : l ≠ [] := by
      rw [drawn_activations] at hact
      cases hu : d.uniformActivation <;> rw [hu] at hact
      · cases hl : drawn_layers d <;> rw [hl] at hact
        · cases hact
        · cases hact
          simp
      · cases hact
    exact getLast_set_of_ne_nil l "sigmoid" hne

/-- C10: if the backend tag drawn from the configured MODELS list is anything
other than "neural_network", create_random_model yields no candidate and no
error: it returns None. -/
theorem create_random_model_unknown_tag_none (tag : String) (inSize outSize : ℕ)
    (criterion : String) (task : Option TaskKind) (d : DLDraws)
    (h : tag ≠ "neural_network") :
    create_random_model tag inSize outSize criterion task d = none := by
  rw [create_random_model, if_neg h]

/-- A fixed outcome of the random draws, used to instantiate theorems at a
concrete input. -/
def sampleDraws : DLDraws :=
  { optimizer := "Adam"
    learningRate := 1/100
    momentum := 0
    layerRange := none
    layerCountDraw := 0
    widthDraw := fun _ => 10
    uniformActivation := true
    singleActDraw := "relu"
    layerActDraw := fun _ => "relu"
    dropout := 0 }

/-- C10 witness: the drawn tag "some_future_type" (the explicit pass branch)
yields None. -/
theorem create_random_model_unknown_tag_none_check :
    create_random_model "some_future_type" 4 1 "MSE" (some TaskKind.regression)
      sampleDraws = none :=
  create_random_model_unknown_tag_none "some_future_type" 4 1 "MSE"
    (some TaskKind.regression) sampleDraws (by decide)

/-- Error taxonomy of the embedded operations.  The source raises
RandomForestModelException and EvolutionaryModelException with message
strings; the constructors distinguish the raise sites the claims care
about.  zeroDivision is Python's ZeroDivisionError, invalidPosition is the
TypeError of indexing a list with None, decodeFailure is the fatal failure
of load_model on a dictionary it cannot dispatch on. -/
inductive ModelError where
  | notTrained
  | notEvaluated
  | invalidPosition
  | invalidValidationType
  | zeroDivision
  | decodeFailure
  deriving DecidableEq

/-- A tabular frame: numeric rows plus column names (the parts of a pandas
DataFrame the embedded code reads). -/
structure DF where
  rows : List (List ℚ)
  columns : List String
  deriving DecidableEq

/-- The frame returned by predict: the predicted values and the column names
they are labelled with (DataFrame(pred, columns=self._predicted_name)). -/
structure ResultFrame where
  values : List ℚ
  columns : Option (List String)
  deriving DecidableEq

/-- Configuration dictionaries are opaque to the claims; an association list
stands in for the nested mapping. -/
def Config : Type := List (String × String)

/-- The attribute state of a RandomForestModel (randomForestModel.py lines
34-42).  The type parameter is the opaque fitted sklearn estimator. -/
structure RandomForestModel (β : Type) where
  task : Option TaskKind
  config : Config
  predicted_name : Option (List String)
  criterion : String
  model : Option β
  model_score : Option ℚ

/-- RandomForestModel.predict (randomForestModel.py lines 165-179): raises
when no estimator has been trained, otherwise returns the estimator's
prediction labelled with the stored column names.  predictFn is the opaque
sklearn predict.  The method assigns no attribute, so it is a pure function
of the state. -/
def RandomForestModel.predict {β : Type} (predictFn : β → List (List ℚ) → List ℚ)
    (m : RandomForestModel β) (X : DF) : Except ModelError ResultFrame :=
  match m.model with
  | none => .error .notTrained
  | some b => .ok ⟨predictFn b X.rows, m.predicted_name⟩

/-- A Python value passed as the validation_split argument of train: None, a
float, or a value of any other type. -/
inductive PyValidation where
  | pynone
  | pyfloat (q : ℚ)
  | other

/-- The validation handling of RandomForestModel.train (randomForestModel.py
lines 63-80): None means train on everything, a non-float raises, and a
float outside [0, 1) is replaced by the default 0.2 before splitting. -/
def rf_validation_split : PyValidation → Except ModelError (Option ℚ)
  | .pynone => .ok none
  | .pyfloat v => .ok (some (if v < 0 ∨ 1 ≤ v then 1/5 else v))
  | .other => .error .invalidValidationType

/-- Oracle for the external effects inside one training run: what sklearn
fit produces in iteration i, the score of that estimator on the held-out (or
training) set, the wall-clock duration of the iteration, and what the
external task inference _determine_task_type returned for the targets. -/
structure TrainOracle (β : Type) where
  fitted : ℕ → β
  score : ℕ → ℚ
  duration : ℕ → ℚ
  taskOf : TaskKind

/-- The model-update test of randomForestModel.py lines 109-110: for
classification keep the new estimator when its score is strictly greater
than the recorded one (or none is recorded), for regression when strictly
smaller; with a task that is neither, the condition is False and nothing is
ever recorded. -/
def rf_is_better (task : Option TaskKind) (best : Option ℚ) (c : ℚ) : Bool :=
  match task, best with
  | some TaskKind.classification, none => true
  | some TaskKind.classification, some b => decide (b < c)
  | some TaskKind.regression, none => true
  | some TaskKind.regression, some b => decide (c < b)
  | none, _ => false

/-- The loop bookkeeping of RandomForestModel.train: accumulated seconds,
completed iterations, and the recorded best estimator and score
(self._model / self._model_score). -/
structure RFLoopState (β : Type) where
  secondsCount : ℚ
  epochs : ℕ
  model : Option β
  modelScore : Option ℚ

/-- One iteration of the while-loop at randomForestModel.py lines 93-129:
fit an estimator, record it if better, accumulate the iteration duration,
and decide whether to keep training from the rounded estimate of remaining
iterations.  Returns the new state, the keep_training flag and the epoch end
time.  A zero average iteration duration makes the Python division raise
ZeroDivisionError. -/
def rfLoopStep {β : Type} (o : TrainOracle β) (task : Option TaskKind)
    (requestedFinish epochStart : ℚ) (st : RFLoopState β) :
    Except ModelError (RFLoopState β × Bool × ℚ) :=
  let criterion := o.score st.epochs
  let newModel := if rf_is_better task st.modelScore criterion then
      some (o.fitted st.epochs) else st.model
  let newScore := if rf_is_better task st.modelScore criterion then
      some criterion else st.modelScore
  let epochEnd := epochStart + o.duration st.epochs
  let seconds := st.secondsCount + (epochEnd - epochStart)
  let epochs := st.epochs + 1
  let timePerEpoch := seconds / (epochs : ℚ)
  if timePerEpoch = 0 then .error .zeroDivision
  else
    .ok (⟨seconds, epochs, newModel, newScore⟩,
         keepTraining requestedFinish epochEnd timePerEpoch, epochEnd)

/-- The while-loop of RandomForestModel.train, iterated while keep_training
holds.  The fuel bounds the length of the trace being reasoned about; the
loop itself only stops when the scheduling decision says so. -/
def rfLoop {β : Type} (o : TrainOracle β) (task : Option TaskKind)
    (requestedFinish : ℚ) :
    ℕ → ℚ → RFLoopState β → Except ModelError (RFLoopState β)
  | 0, _, st => .ok st
  | fuel + 1, now, st =>
    match rfLoopStep o task requestedFinish now st with
    | .error e => .error e
    | .ok (st1, keep, epochEnd) =>
      if keep then rfLoop o task requestedFinish fuel epochEnd st1 else .ok st1

set_option linter.unusedVariables false in
/-- RandomForestModel.train (randomForestModel.py lines 45-163) as a state
transformer.  The result pair is (the mutated attribute state, the Python
return value of the call).  The method body contains no return statement, so
the Python return value is always None — embedded as the constant none —
although the signature and docstring promise the trained model.  startTime
is the wall clock at entry; requested_finish is startTime + trainTime (line
87).  X is read only through the externally drawn split, which the oracle
absorbs. -/
def RandomForestModel.train {β : Type} (o : TrainOracle β) (fuel : ℕ)
    (m : RandomForestModel β) (X Y : DF) (trainTime : ℚ)
    (validation : PyValidation) (startTime : ℚ) :
    Except ModelError (RandomForestModel β × Option (RandomForestModel β)) :=
  let predName := match m.predicted_name with
    | none => Y.columns
    | some p => p
  let task := match m.task with
    | none => some o.taskOf
    | some t => some t
  match rf_validation_split validation with
  | .error e => .error e
  | .ok _ =>
    match rfLoop o task (startTime + trainTime) fuel startTime
        ⟨0, 0, m.model, m.model_score⟩ with
    | .error e => .error e
    | .ok final =>
      .ok ({ m with
              predicted_name := some predName
              task := task
              model := final.model
              model_score := final.modelScore },
           (none : Option (RandomForestModel β)))

theorem rfLoopStep_ok {β : Type} (o : TrainOracle β) (task : Option TaskKind)
    (rf now : ℚ) (st : RFLoopState β) (h : 0 ≤ st.secondsCount)
    (hd : 0 < o.duration st.epochs) :
    ∃ st1 keep tEnd, rfLoopStep o task rf now st = .ok (st1, keep, tEnd) ∧
      0 ≤ st1.secondsCount := by
  have hsec : 0 < st.secondsCount + (now + o.duration st.epochs - now) := by
    have : now + o.duration st.epochs - now = o.duration st.epochs := by ring
    rw [this]
    linarith
  have hden : (0:ℚ) < ((st.epochs + 1 : ℕ) : ℚ) := by
    exact_mod_cast Nat.succ_pos st.epochs
  have hne : ¬ ((st.secondsCount + (now + o.duration st.epochs - now)) /
      ((st.epochs + 1 : ℕ) : ℚ) = 0) :=
    ne_of_gt (div_pos hsec hden)
  refine ⟨⟨st.secondsCount + (now + o.duration st.epochs - now), st.epochs + 1,
      (if rf_is_better task st.modelScore (o.score st.epochs) then
        some (o.fitted st.epochs) else st.model),
      (if rf_is_better task st.modelScore (o.score st.epochs) then
        some (o.score st.epochs) else st.modelScore)⟩,
    keepTraining rf (now + o.duration st.epochs)
      ((st.secondsCount + (now + o.duration st.epochs - now)) /
        ((st.epochs + 1 : ℕ) : ℚ)),
    now + o.duration st.epochs, ?_, le_of_lt hsec⟩
  simp only [rfLoopStep]
  rw [if_neg hne]

theorem rfLoop_ok {β : Type} (o : TrainOracle β) (task : Option TaskKind)
    (rf : ℚ) (hdur : ∀ i, 0 < o.duration i) :
    ∀ (fuel : ℕ) (now : ℚ) (st : RFLoopState β), 0 ≤ st.secondsCount →
      ∃ r, rfLoop o task rf fuel now st = .ok r := by
  intro fuel
  induction fuel with
  | zero =>
    intro now st h
    exact ⟨st, rfl⟩
  | succ n ih =>
    intro now st h
    obtain ⟨st1, keep, tEnd, hstep, h1⟩ :=
      rfLoopStep_ok o task rf now st h (hdur st.epochs)
    rw [rfLoop, hstep]
    cases keep with
    | false => exact ⟨st1, rfl⟩
    | true =>
      obtain ⟨r, hr⟩ := ih tEnd st1 h1
      exact ⟨r, hr⟩

theorem rf_train_ok {β : Type} (o : TrainOracle β) (fuel : ℕ)
    (m : RandomForestModel β) (X Y : DF) (trainTime : ℚ) (v : ℚ)
    (startTime : ℚ) (hdur : ∀ i, 0 < o.duration i) :
    ∃ st, RandomForestModel.train o fuel m X Y trainTime (.pyfloat v) startTime
      = .ok (st, none) := by
  obtain ⟨r, hr⟩ := rfLoop_ok o
    (match m.task with | none => some o.taskOf | some t => some t)
    (startTime + trainTime) hdur fuel startTime ⟨0, 0, m.model, m.model_score⟩
    (le_refl 0)
  have htrain : RandomForestModel.train o fuel m X Y trainTime (.pyfloat v)
      startTime = .ok ({ m with
        predicted_name := some (match m.predicted_name with
          | none => Y.columns
          | some p => p)
        task := (match m.task with | none => some o.taskOf | some t => some t)
        model := r.model
        model_score := r.modelScore },
      (none : Option (RandomForestModel β))) := by
    simp only [RandomForestModel.train, rf_validation_split]
    rw [hr]
  exact ⟨_, htrain⟩

/-- C5 (code evaluation at the failing behaviour): every call of
RandomForestModel.train that completes (here: any float validation fraction
and positive measured iteration durations) returns the Python value None —
the method body of randomForestModel.py lines 45-163 contains no return
statement — although its signature, its docstring and the AbstractModel
contract say it returns the trained model instance.  (EvolutionaryModel.train
likewise returns self._model, the inner winning model, rather than itself.) -/
theorem rf_train_always_returns_none {β : Type} (o : TrainOracle β) (fuel : ℕ)
    (m : RandomForestModel β) (X Y : DF) (trainTime : ℚ) (v : ℚ)
    (startTime : ℚ) (hdur : ∀ i, 0 < o.duration i) :
    ∃ st, RandomForestModel.train o fuel m X Y trainTime (.pyfloat v) startTime
      = .ok (st, none) :=
  rf_train_ok o fuel m X Y trainTime v startTime hdur

/-- A fixed oracle over the unit payload, used to instantiate train theorems
at a concrete input: every fit yields the unit estimator with score 1, every
iteration lasts one second, and the inferred task is classification. -/
def sampleOracle : TrainOracle Unit :=
  { fitted := fun _ => ()
    score := fun _ => 1
    duration := fun _ => 1
    taskOf := TaskKind.classification }

/-- An untrained RandomForestModel state as produced by the constructor with
task classification and empty configuration. -/
def sampleRF : RandomForestModel Unit :=
  { task := some TaskKind.classification
    config := []
    predicted_name := none
    criterion := ""
    model := none
    model_score := none }

/-- A two-row, one-column data frame used to instantiate theorems. -/
def sampleDF : DF :=
  ⟨[[0], [1]], ["y"]⟩

/-- C5 witness: the theorem applied at the sample model, data, a five-second
budget, validation fraction 1/5 and fuel 3. -/
theorem rf_train_always_returns_none_check :
    ∃ st, RandomForestModel.train sampleOracle 3 sampleRF sampleDF sampleDF 5
      (.pyfloat (1/5)) 0 = .ok (st, none) :=
  rf_train_always_returns_none sampleOracle 3 sampleRF sampleDF sampleDF 5
    (1/5) 0 (fun i => by norm_num [sampleOracle])

/-- C7: for every float validation fraction outside the interval [0, 1), the
validation handling substitutes the documented default 0.2 and the training
call proceeds without raising (with positive measured iteration durations it
completes normally). -/
theorem rf_train_invalid_validation_substituted {β : Type} (o : TrainOracle β)
    (fuel : ℕ) (m : RandomForestModel β) (X Y : DF) (trainTime : ℚ) (v : ℚ)
    (startTime : ℚ) (hv : v < 0 ∨ 1 ≤ v) (hdur : ∀ i, 0 < o.duration i) :
    rf_validation_split (.pyfloat v) = .ok (some (1/5)) ∧
    ∃ st, RandomForestModel.train o fuel m X Y trainTime (.pyfloat v) startTime
      = .ok (st, none) := by
  constructor
  · simp only [rf_validation_split, if_pos hv]
  · exact rf_train_ok o fuel m X Y trainTime v startTime hdur

/-- C7 witness: validation fraction 3/2 (the spec's example 1.5) is replaced
by 1/5 (= 0.2) and training proceeds on the sample input. -/
theorem rf_train_invalid_validation_substituted_check :
    rf_validation_split (.pyfloat (3/2)) = .ok (some (1/5)) ∧
    ∃ st, RandomForestModel.train sampleOracle 3 sampleRF sampleDF sampleDF 5
      (.pyfloat (3/2)) 0 = .ok (st, none) :=
  rf_train_invalid_validation_substituted sampleOracle 3 sampleRF sampleDF
    sampleDF 5 (3/2) 0 (by norm_num) (fun i => by norm_num [sampleOracle])

/-- Metadata stored and reloaded by EvolutionaryModel.to_dict and
_init_from_dictionary (evolutionaryModel.py lines 150-158 and 180-185). -/
structure EvoMeta where
  predicted_name : Option (List String)
  task : Option TaskKind
  config : Config
  input_size : ℕ
  output_size : ℕ

/-- A model of the backend registry reachable by the serialization claims: a
RandomForestModel attribute state, or an EvolutionaryModel whose final _model
attribute is either None (evoUntrained) or a model of the registry
(evoTrained).  The evolutionary model's _model_score is not serialized and
not read by predict, so it is not part of this state. -/
inductive AnyModel (β : Type) : Type where
  | rf (st : RandomForestModel β)
  | evoUntrained (meta : EvoMeta)
  | evoTrained (meta : EvoMeta) (inner : AnyModel β)

/-- The dictionary {MODEL_TYPE, MODEL_DATA: {MODEL, METADATA}} produced by
to_dict: the rf shape from randomForestModel.py lines 243-265 (the pickled
estimator — an Option β payload, pickle being faithful on it — plus
PREDICTED_NAME, CONFIG and TASK), and the evolutionary shape from
evolutionaryModel.py lines 137-164 with MODEL either None or the inner
model's own dictionary.  The MODEL_TYPE tag is carried by the constructor. -/
inductive SerializedModel (β : Type) : Type where
  | rf (payload : Option β) (predName : Option (List String)) (config : Config)
      (task : Option TaskKind)
  | evoNone (meta : EvoMeta)
  | evoSome (inner : SerializedModel β) (meta : EvoMeta)

/-- to_dict across the registry (randomForestModel.py lines 243-265,
evolutionaryModel.py lines 137-164). -/
def AnyModel.to_dict {β : Type} : AnyModel β → SerializedModel β
  | .rf st => .rf st.model st.predicted_name st.config st.task
  | .evoUntrained meta => .evoNone meta
  | .evoTrained meta inner => .evoSome inner.to_dict meta

/-- Modelled from the spec: load_model lives in Pipeline/Learner/Models,
which is not under src.  Per spec 4.6 it looks the backend constructor up by
the MODEL_TYPE tag and hands it the dictionary, so an rf dictionary
reconstructs through RandomForestModel._init_from_dictionary
(randomForestModel.py lines 267-285, which restores predicted_name, config,
task and unpickles the estimator) and an evolutionary dictionary through
EvolutionaryModel._init_from_dictionary (evolutionaryModel.py lines 166-191),
which restores the metadata and recursively calls load_model on the MODEL
entry; a MODEL entry that is None cannot be dispatched (it carries no
MODEL_TYPE) and decode failures are fatal.  The rf attributes criterion and
model_score are left unset by the Python loading path and no reader of a
loaded model touches them; the embedding puts their constructor defaults. -/
def load_model {β : Type} : SerializedModel β → Except ModelError (AnyModel β)
  | .rf payload predName config task =>
      .ok (.rf ⟨task, config, predName, "", payload, none⟩)
  | .evoNone _ => .error .decodeFailure
  | .evoSome inner meta =>
      match load_model inner with
      | .error e => .error e
      | .ok m => .ok (.evoTrained meta m)

/-- predict across the registry: RandomForestModel.predict raises when its
_model is None, and EvolutionaryModel.predict (evolutionaryModel.py lines
126-135) raises when its _model is None and otherwise delegates to it.
Neither method assigns any attribute, so predict leaves the model state
unchanged and is embedded as a pure function of the state. -/
def AnyModel.predict {β : Type} (predictFn : β → List (List ℚ) → List ℚ) :
    AnyModel β → DF → Except ModelError ResultFrame
  | .rf st, X => RandomForestModel.predict predictFn st X
  | .evoUntrained _, _ => .error .notTrained
  | .evoTrained _ inner, X => inner.predict predictFn X

/-- A model on which a successful train has been performed: the rf estimator
is present, and an evolutionary model holds a model that is itself trained. -/
def AnyModel.trained {β : Type} : AnyModel β → Prop
  | .rf st => st.model.isSome = true
  | .evoUntrained _ => False
  | .evoTrained _ inner => inner.trained

/-- A model on which no successful train has been performed: the rf estimator
slot and the evolutionary final-model slot are still None, as the
constructors leave them. -/
def AnyModel.untrained {β : Type} : AnyModel β → Prop
  | .rf st => st.model = none
  | .evoUntrained _ => True
  | .evoTrained _ _ => False

/-- C8: for every model on which no successful train has been performed,
predict raises the backend's not-trained exception for every input, and the
model state is unchanged (predict performs no attribute assignment; see
AnyModel.predict). -/
theorem predict_before_train_raises {β : Type}
    (fn : β → List (List ℚ) → List ℚ) (m : AnyModel β) (h : m.untrained)
    (X : DF) : AnyModel.predict fn m X = .error .notTrained := by
  cases m with
  | rf st =>
    simp only [AnyModel.untrained] at h
    simp [AnyModel.predict, RandomForestModel.predict, h]
  | evoUntrained meta => rfl
  | evoTrained meta inner =>
    simp only [AnyModel.untrained] at h

/-- C8 witness: a freshly constructed random-forest model (sampleRF, whose
_model is None) raises on the sample frame. -/
theorem predict_before_train_raises_check :
    AnyModel.predict (fun _ _ => []) (AnyModel.rf sampleRF) sampleDF =
      .error .notTrained :=
  predict_before_train_raises (fun _ _ => []) (AnyModel.rf sampleRF)
    (by simp [AnyModel.untrained, sampleRF]) sampleDF

/-- C2: for every trained model m and every input frame, decoding the
encoding of m succeeds and the decoded model's predict agrees with m's
predict on that frame (in particular on every frame whose column count
matches m's declared input size). -/
theorem decode_encode_predict_roundtrip {β : Type}
    (fn : β → List (List ℚ) → List ℚ) (m : AnyModel β) (h : m.trained)
    (X : DF) :
    ∃ m2, load_model (AnyModel.to_dict m) = .ok m2 ∧
      AnyModel.predict fn m2 X = AnyModel.predict fn m X := by
  induction m with
  | rf st =>
    simp only [AnyModel.trained] at h
    obtain ⟨b, hb⟩ := Option.isSome_iff_exists.mp h
    refine ⟨.rf ⟨st.task, st.config, st.predicted_name, "", st.model, none⟩,
      rfl, ?_⟩
    simp [AnyModel.predict, RandomForestModel.predict, hb]
  | evoUntrained meta =>
    simp only [AnyModel.trained] at h
  | evoTrained meta inner ih =>
    simp only [AnyModel.trained] at h
    obtain ⟨m2, hdec, hpred⟩ := ih h
    refine ⟨.evoTrained meta m2, ?_, ?_⟩
    · simp only [AnyModel.to_dict, load_model, hdec]
    · simpa [AnyModel.predict] using hpred

/-- A trained model: an evolutionary wrapper whose winning inner model is a
random forest with the unit estimator present. -/
def sampleTrained : AnyModel Unit :=
  .evoTrained ⟨some ["y"], some TaskKind.classification, [], 1, 1⟩
    (.rf { sampleRF with model := some () })

/-- C2 witness: the round trip of the sample trained model predicts
identically on the sample frame. -/
theorem decode_encode_predict_roundtrip_check :
    ∃ m2, load_model (AnyModel.to_dict sampleTrained) = .ok m2 ∧
      AnyModel.predict (fun _ rows => rows.map (fun _ => 0)) m2 sampleDF =
      AnyModel.predict (fun _ rows => rows.map (fun _ => 0)) sampleTrained
        sampleDF :=
  decode_encode_predict_roundtrip (fun _ rows => rows.map (fun _ => 0))
    sampleTrained (by simp [AnyModel.trained, sampleTrained, sampleRF]) sampleDF

/-- Modelled from the spec: chromosome.py is imported by population.py but is
not under src.  Per spec 4.3 and the construction Chromosome(model) at
population.py line 90, a chromosome owns one candidate model plus its cached
fitness, and get_fitness returns the cached score or fails with the
NotEvaluatedError equivalent when none has been computed. -/
structure Chromosome (α : Type) where
  model : α
  fitness : Option ℚ
  deriving DecidableEq

/-- Chromosome(model): a freshly wrapped candidate with no cached fitness. -/
def Chromosome.mk_new {α : Type} (m : α) : Chromosome α :=
  ⟨m, none⟩

/-- Chromosome.get_fitness, per spec 4.3 (chromosome.py is not under src). -/
def Chromosome.get_fitness {α : Type} (c : Chromosome α) :
    Except ModelError ℚ :=
  match c.fitness with
  | none => .error .notEvaluated
  | some f => .ok f

/-- The population state: the chromosome list owned by Population
(population.py line 31). -/
structure Population (α : Type) where
  chromosomes : List (Chromosome α)

/-- The scan of Population.replace (population.py lines 78-87): walk the
chromosome list, tracking the fitness and position of the worst chromosome so
far; the tracked entry moves to the inspected chromosome when nothing is
tracked yet or the comparison condition of line 85 holds.  cmp receives the
tracked fitness and the inspected fitness and stands for the truthiness of
the _is_fitter call in the or-condition; in the program _is_fitter is the
TODO stub returning None, so the condition is is_fitter_src_cond — false for
every pair — but the scan is embedded generically over cmp so that
properties independent of the comparison hold for any implementation of it.
Reading a chromosome with no cached fitness fails with the NotEvaluatedError
equivalent. -/
def findWorst {α : Type} (cmp : ℚ → ℚ → Bool) :
    ℕ → Option (ℚ × ℕ) → List (Chromosome α) →
      Except ModelError (Option (ℚ × ℕ))
  | _, acc, [] => .ok acc
  | i, acc, c :: rest =>
    match c.get_fitness with
    | .error e => .error e
    | .ok f =>
      match acc with
      | none => findWorst cmp (i + 1) (some (f, i)) rest
      | some (wf, wp) =>
        if cmp wf f then findWorst cmp (i + 1) (some (f, i)) rest
        else findWorst cmp (i + 1) (some (wf, wp)) rest

/-- Population.replace (population.py lines 71-93): locate a position with
the scan, then overwrite that position with Chromosome(model) — a fresh
chromosome around the incoming model; no evaluation is performed on the
incoming model.  When the scan yields no position (an empty population)
Python indexes the list with None, a TypeError.  The comparison condition is
threaded through to the scan; the program runs it with is_fitter_src_cond,
the truthiness of the TODO-stub _is_fitter. -/
def Population.replace {α : Type} (cmp : ℚ → ℚ → Bool) (p : Population α)
    (model : α) : Except ModelError (Population α) :=
  match findWorst cmp 0 none p.chromosomes with
  | .error e => .error e
  | .ok none => .error .invalidPosition
  | .ok (some (_, wp)) =>
    .ok ⟨p.chromosomes.set wp (Chromosome.mk_new model)⟩

/-- Population._create_population (population.py lines 119-131): build
population_size chromosomes, each wrapping one freshly generated model, no
fitness cached.  The generator records, per index, what _random_model
returned (a TODO stub in the source; spec 4.2 makes it the candidate
factory). -/
def create_population {α : Type} (gen : ℕ → α) (population_size : ℕ) :
    List (Chromosome α) :=
  (List.range population_size).map (fun i => Chromosome.mk_new (gen i))

theorem findWorst_const_false {α : Type} (l : List (Chromosome α)) :
    ∀ (i : ℕ) (wf : ℚ) (wp : ℕ),
      (∀ c ∈ l, c.fitness.isSome = true) →
      findWorst is_fitter_src_cond i (some (wf, wp)) l
        = .ok (some (wf, wp)) := by
  induction l with
  | nil =>
    intro i wf wp hev
    rfl
  | cons c rest ih =>
    intro i wf wp hev
    obtain ⟨f, hf⟩ := Option.isSome_iff_exists.mp
      (hev c (List.mem_cons_self c rest))
    have hgf : c.get_fitness = .ok f := by
      simp [Chromosome.get_fitness, hf]
    have hcond : ¬ (is_fitter_src_cond wf f = true) := by
      simp [is_fitter_src_cond, is_fitter_src, py_truthy]
    rw [findWorst, hgf]
    simp only [if_neg hcond]
    exact ih (i + 1) wf wp (fun c2 hc2 => hev c2 (List.mem_cons_of_mem c hc2))

/-- C3 (amended): Population.replace does not evaluate the incoming
candidate, and because the program's _is_fitter is a TODO stub returning
None — falsy in the or-condition of the scan — the tracked position never
moves past the first index.  On a nonempty population whose members all
carry a cached fitness (reading an unevaluated member raises the
NotEvaluatedError equivalent), replace removes exactly the chromosome at
position 0, regardless of the members' fitness ranks, and inserts the
incoming candidate wrapped in a fresh, unevaluated chromosome in its
place. -/
theorem replace_swaps_first_unevaluated {α : Type} (p : Population α) (m : α)
    (hne : p.chromosomes ≠ [])
    (hev : ∀ c ∈ p.chromosomes, c.fitness.isSome = true) :
    Population.replace is_fitter_src_cond p m =
      .ok ⟨p.chromosomes.set 0 ⟨m, none⟩⟩ := by
  obtain ⟨c, rest, hcr⟩ := List.exists_cons_of_ne_nil hne
  obtain ⟨f, hf⟩ := Option.isSome_iff_exists.mp
    (hev c (by rw [hcr]; exact List.mem_cons_self c rest))
  have hgf : c.get_fitness = .ok f := by
    simp [Chromosome.get_fitness, hf]
  have hrest : ∀ c2 ∈ rest, c2.fitness.isSome = true := by
    intro c2 hc2
    exact hev c2 (by rw [hcr]; exact List.mem_cons_of_mem c hc2)
  have hscan : findWorst is_fitter_src_cond 0 none p.chromosomes
      = .ok (some (f, 0)) := by
    rw [hcr, findWorst, hgf]
    exact findWorst_const_false rest 1 f 0 hrest
  rw [Population.replace, hscan]
  rfl

/-- The population of the C3 counterexample: position 0 carries score 3,
position 1 carries score 1 — under the spec-4.4 classification comparator
(greater is fitter) position 1 holds the strictly lower rank. -/
def samplePop : Population ℕ :=
  ⟨[⟨0, some 3⟩, ⟨1, some 1⟩]⟩

/-- C3 counterexample: replacing into samplePop with the unevaluated
incoming candidate 5 succeeds, but (a) the removed chromosome is the one at
position 0 with score 3, although score 3 is strictly fitter than the score
1 held at position 1, so the removed chromosome is not the one with the
lowest comparator rank (the TODO-stub comparison never lets the scan
advance); and (b) the chromosome inserted for the incoming candidate has no
cached fitness: replace did not evaluate it. -/
theorem replace_leaves_incoming_unevaluated :
    Population.replace is_fitter_src_cond samplePop 5 =
      .ok ⟨[⟨5, none⟩, ⟨1, some 1⟩]⟩ ∧
    is_fitter TaskKind.classification 3 1 = true := by
  constructor
  · rfl
  · simp only [is_fitter, decide_eq_true_eq]
    norm_num

/-- C3 witness: the amended theorem applied to samplePop and the incoming
candidate 7, its hypotheses discharged concretely. -/
theorem replace_swaps_first_unevaluated_check :
    Population.replace is_fitter_src_cond samplePop 7 =
      .ok ⟨samplePop.chromosomes.set 0 ⟨7, none⟩⟩ :=
  replace_swaps_first_unevaluated samplePop 7
    (by simp [samplePop])
    (by
      intro c hc
      simp only [samplePop, List.mem_cons, List.not_mem_nil, or_false] at hc
      rcases hc with h | h <;> rw [h] <;> rfl)

theorem replace_length {α : Type} (cmp : ℚ → ℚ → Bool) (p : Population α)
    (m : α) (p2 : Population α)
    (h : Population.replace cmp p m = .ok p2) :
    p2.chromosomes.length = p.chromosomes.length := by
  rw [Population.replace] at h
  cases hfw : findWorst cmp 0 none p.chromosomes with
  | error e =>
    rw [hfw] at h
    cases h
  | ok acc =>
    rw [hfw] at h
    cases acc with
    | none => cases h
    | some pr =>
      obtain ⟨wf, wp⟩ := pr
      cases h
      simp

/-- One generation-level replacement as executed by the driver, the
comparison condition threaded through: the population after
Population.replace, unchanged when the call raises (the scan precedes any
mutation of the list, so a raising call leaves the population untouched). -/
def replace_step {α : Type} (cmp : ℚ → ℚ → Bool) (p : Population α)
    (m : α) : Population α :=
  match Population.replace cmp p m with
  | .ok p2 => p2
  | .error _ => p

/-- C4: population cardinality is invariant: seeding with population_size n
yields exactly n chromosomes, and every sequence of replace calls leaves
exactly n, because each successful replacement overwrites exactly one
position (List.set) and a failing call changes nothing — proved for every
comparison condition, in particular for is_fitter_src_cond, the constantly
false condition the program's TODO-stub _is_fitter produces. -/
theorem population_cardinality_invariant {α : Type} (cmp : ℚ → ℚ → Bool)
    (gen : ℕ → α) (n : ℕ) (ms : List α) :
    (ms.foldl (replace_step cmp)
      ⟨create_population gen n⟩).chromosomes.length = n := by
  have hlen : ∀ (p : Population α) (m : α),
      (replace_step cmp p m).chromosomes.length = p.chromosomes.length := by
    intro p m
    cases hrep : Population.replace cmp p m with
    | error e => simp [replace_step, hrep]
    | ok p2 =>
      have := replace_length cmp p m p2 hrep
      simp [replace_step, hrep, this]
  have hfold : ∀ (ms2 : List α) (p : Population α),
      (ms2.foldl (replace_step cmp) p).chromosomes.length
        = p.chromosomes.length := by
    intro ms2
    induction ms2 with
    | nil => intro p; rfl
    | cons a t ih =>
      intro p
      rw [List.foldl_cons, ih, hlen]
  rw [hfold]
  simp [create_population]
